import Mathlib

/-!
Shallow embedding of the nubivis unit-expression parser
(`source/parser.h`, `source/parser.cpp`, entry point `source/pe.cpp`).

The C++ `Fraction` type is `boost::multiprecision::cpp_rational`, an exact
arbitrary-precision rational; it is modelled by `ℚ`.  The C++ exceptions
`TokenError` (lexical/grammar) and `FactorsError` (dimensional/semantic) are
modelled by `Except` over the error kind `PErr`; the recursive-descent parser
additionally gets a fuel parameter (`PErr.noFuel`) to make the mutual
recursion structural — every concrete run below is given ample fuel, so
`noFuel` never occurs in any evaluated statement.

Modelling notes, where the C++ semantics is wider than the embedding:
* `boost` rational division by a zero denominator throws
  `std::overflow_error` (neither `TokenError` nor `FactorsError`); `ℚ`
  division by zero yields `0`.  No claim below evaluates a division whose
  divisor multiplier is zero, and the affine-offset guard (the one source of
  `FactorsError` in `operator/`) is checked before the division in both the
  C++ and the model, so the error-kind statements are unaffected.
* `Fraction(std::string)` on an empty literal fails at runtime in boost; the
  model returns a token error there.  No claim reaches that path.
* A thrown C++ exception leaves the partially-consumed input and any table
  insertion already performed in place; the model's `Except` error path drops
  that intermediate state.  Every statement below that observes the table
  state does so after a *successful* parse, where the model and the C++
  agree.
* Double literals in `NONSIUNITS` (e.g. `3.048e-1`) construct the `Fraction`
  from the nearest IEEE-754 double; the model uses the exact decimal value.
  No claim reads any of those entries' numeric fields — only key membership
  in `NONSIUNITS` matters below.
* `std::map` is keyed; the embedding uses an association list.  Lookup is by
  key in both, and `operator[]`'s insert-if-absent is modelled by
  `mapIndex`; the position of an inserted entry is never observed.
* The tokenizer works on `char`s (bytes); the model works on Lean `Char`s.
  The two differ only on the multi-byte letters `µ` and `Ω` (which the C++
  byte-wise comparison can in fact never match against the two-byte strings
  in its `LETTERS` table); no claim involves those letters.
-/

namespace Nubivis

attribute [local semireducible] Rat.mul Rat.inv Rat.add Rat.sub

/-- Error kinds: `token` models a thrown `TokenError`, `factors` a thrown
`FactorsError`, and `noFuel` is the fuel-exhaustion sentinel of the
embedding (never reached by any concrete run in this file). -/
inductive PErr where
  | token : PErr
  | factors : PErr
  | noFuel : PErr
deriving DecidableEq

instance {α : Type} [DecidableEq α] : DecidableEq (Except PErr α) := fun a b =>
  match a, b with
  | .ok x, .ok y =>
    if h : x = y then .isTrue (congrArg Except.ok h)
    else .isFalse (fun hc => h (Except.ok.inj hc))
  | .error x, .error y =>
    if h : x = y then .isTrue (congrArg Except.error h)
    else .isFalse (fun hc => h (Except.error.inj hc))
  | .ok _, .error _ => .isFalse (fun hc => Except.noConfusion hc)
  | .error _, .ok _ => .isFalse (fun hc => Except.noConfusion hc)

/-- `class Factors` from `parser.h`: multiplier, affine offset and the seven
SI base-dimension exponents, all exact rationals.  Field defaults mirror the
C++ in-class initialisers (`multiplier{1}`, everything else `{0}`), so `{}`
is the C++ `Factors()`. -/
structure Factors where
  multiplier : ℚ := 1
  offset : ℚ := 0
  m : ℚ := 0
  kg : ℚ := 0
  s : ℚ := 0
  A : ℚ := 0
  K : ℚ := 0
  mol : ℚ := 0
  cd : ℚ := 0
deriving DecidableEq

instance : Inhabited Factors := ⟨{}⟩

/-- `Factors::operator*` (parser.cpp:245).  Guard: both offsets nonzero.
The result is a default-constructed `Factors res{}` whose fields are then
assigned — the source assigns `m, kg, s, A, mol, cd` but *not* `K`, so the
result's `K` and `offset` keep their default `0`. -/
def Factors.mul (a b : Factors) : Except PErr Factors :=
  if a.offset ≠ 0 ∧ b.offset ≠ 0 then .error .factors
  else .ok { multiplier := a.multiplier * b.multiplier
             offset := 0
             m := a.m + b.m
             kg := a.kg + b.kg
             s := a.s + b.s
             A := a.A + b.A
             K := 0
             mol := a.mol + b.mol
             cd := a.cd + b.cd }

/-- `Factors::operator*=` (parser.cpp:260).  This one does update all seven
exponents, `K` included; `offset` and the receiver's other state persist. -/
def Factors.mulAssign (a b : Factors) : Except PErr Factors :=
  if a.offset ≠ 0 ∧ b.offset ≠ 0 then .error .factors
  else .ok { a with
             multiplier := a.multiplier * b.multiplier
             m := a.m + b.m
             kg := a.kg + b.kg
             s := a.s + b.s
             A := a.A + b.A
             K := a.K + b.K
             mol := a.mol + b.mol
             cd := a.cd + b.cd }

/-- `Factors::operator/` (parser.cpp:275).  Fresh `res{}`; the source
subtracts `m, kg, s, A, mol, cd` but not `K`, which stays `0`. -/
def Factors.div (a b : Factors) : Except PErr Factors :=
  if a.offset ≠ 0 ∧ b.offset ≠ 0 then .error .factors
  else .ok { multiplier := a.multiplier / b.multiplier
             offset := 0
             m := a.m - b.m
             kg := a.kg - b.kg
             s := a.s - b.s
             A := a.A - b.A
             K := 0
             mol := a.mol - b.mol
             cd := a.cd - b.cd }

/-- `Factors::operator/=` (parser.cpp:290).  Updates the receiver in place;
the source subtracts `m, kg, s, A, mol, cd` but not `K`, so the receiver's
`K` is left unchanged. -/
def Factors.divAssign (a b : Factors) : Except PErr Factors :=
  if a.offset ≠ 0 ∧ b.offset ≠ 0 then .error .factors
  else .ok { a with
             multiplier := a.multiplier / b.multiplier
             m := a.m - b.m
             kg := a.kg - b.kg
             s := a.s - b.s
             A := a.A - b.A
             mol := a.mol - b.mol
             cd := a.cd - b.cd }

/-- `Factors::operator-` (parser.cpp:304): `multiplier *= -1`. -/
def Factors.neg (a : Factors) : Factors :=
  { a with multiplier := a.multiplier * (-1) }

/-- Models `Fraction(std::pow(static_cast<double>(x), static_cast<double>(e)))`
from `Factors::pow`.  For an integer exponent applied to the bases arising in
the claims below (base `1`), IEEE-754 `pow` is exact, so the model computes
the exact integer power there; the non-integer-exponent branch is a lossy
double-precision approximation in the C++ and is not modelled (no claim
depends on it — `pow`'s dimension arithmetic, which the claims do concern,
does not go through this function). -/
def dpow (x e : ℚ) : ℚ :=
  if e.den = 1 then x ^ e.num else 0

/-- `Factors::pow` (parser.cpp:315).  Guard: nonzero offset.  The exponent is
the argument's multiplier; the source multiplies `m, kg, s, A, mol, cd` by it
but *not* `K`, which is left unchanged. -/
def Factors.pw (a f : Factors) : Except PErr Factors :=
  if a.offset ≠ 0 then .error .factors
  else
    let e := f.multiplier
    .ok { a with
          multiplier := dpow a.multiplier e
          m := a.m * e
          kg := a.kg * e
          s := a.s * e
          A := a.A * e
          mol := a.mol * e
          cd := a.cd * e }

/-- `SIUNITS` (parser.cpp:19), transcribed entry by entry; the 9 constructor
arguments are `multiplier, offset, m, kg, s, A, K, mol, cd`. -/
def SIUNITS : List (String × Factors) := [
  ("m", ⟨1, 0, 1, 0, 0, 0, 0, 0, 0⟩),
  ("kg", ⟨1, 0, 0, 1, 0, 0, 0, 0, 0⟩),
  ("g", ⟨1/1000, 0, 0, 1, 0, 0, 0, 0, 0⟩),
  ("s", ⟨1, 0, 0, 0, 1, 0, 0, 0, 0⟩),
  ("A", ⟨1, 0, 0, 0, 0, 1, 0, 0, 0⟩),
  ("K", ⟨1, 0, 0, 0, 0, 0, 1, 0, 0⟩),
  ("mol", ⟨1, 0, 0, 0, 0, 0, 0, 1, 0⟩),
  ("cd", ⟨1, 0, 0, 0, 0, 0, 0, 0, 1⟩),
  ("rad", {}),
  ("sr", {}),
  ("Hz", ⟨1, 0, 0, 0, -1, 0, 0, 0, 0⟩),
  ("N", ⟨1, 0, 1, 1, -2, 0, 0, 0, 0⟩),
  ("Pa", ⟨1, 0, -1, 1, -2, 0, 0, 0, 0⟩),
  ("J", ⟨1, 0, 2, 1, -2, 0, 0, 0, 0⟩),
  ("W", ⟨1, 0, 2, 1, -3, 0, 0, 0, 0⟩),
  ("C", ⟨1, 0, 0, 0, 1, 1, 0, 0, 0⟩),
  ("V", ⟨1, 0, 2, 1, -3, -1, 0, 0, 0⟩),
  ("F", ⟨1, 0, -2, -1, 4, 2, 0, 0, 0⟩),
  ("Ω", ⟨1, 0, 2, 1, -3, -2, 0, 0, 0⟩),
  ("S", ⟨1, 0, -2, -1, -2, -1, 0, 0, 0⟩),
  ("Wb", ⟨1, 0, 2, 1, -2, -1, 0, 0, 0⟩),
  ("T", ⟨1, 0, 0, 1, -2, -1, 0, 0, 0⟩),
  ("H", ⟨1, 0, 2, 1, -2, -2, 0, 0, 0⟩),
  ("degC", ⟨1, 27315/100, 0, 0, 0, 0, 1, 0, 0⟩),
  ("lm", ⟨1, 0, 0, 0, 0, 0, 0, 0, 1⟩),
  ("lx", ⟨1, 0, -2, 0, 0, 0, 0, 0, 1⟩),
  ("Bq", ⟨1, 0, 0, 0, -1, 0, 0, 0, 0⟩),
  ("Gy", ⟨1, 0, 2, 0, -2, 0, 0, 0, 0⟩),
  ("Sv", ⟨1, 0, 2, 0, -2, 0, 0, 0, 0⟩),
  ("kat", ⟨1, 0, 0, 0, -1, 0, 0, 1, 0⟩),
  ("L", ⟨1/1000, 0, 3, 0, 0, 0, 0, 0, 0⟩)
]

/-- `NONSIUNITS` (parser.cpp:53).  Double literals are written as their
exact decimal values (see the modelling notes at the top of the file — only
this table's *keys* are observed by any claim). -/
def NONSIUNITS : List (String × Factors) := [
  ("Å", ⟨1/10000000000, 1, 0, 0, 0, 0, 0, 0, 0⟩),
  ("ua", ⟨149597900000, 0, 1, 0, 0, 0, 0, 0, 0⟩),
  ("ch", ⟨2011684/100000, 0, 1, 0, 0, 0, 0, 0, 0⟩),
  ("fathom", ⟨1828804/1000000, 0, 1, 0, 0, 0, 0, 0, 0⟩),
  ("fermi", ⟨1/1000000000000000, 0, 1, 0, 0, 0, 0, 0, 0⟩),
  ("ft", ⟨3048/10000, 0, 1, 0, 0, 0, 0, 0, 0⟩),
  ("in", ⟨254/10000, 0, 1, 0, 0, 0, 0, 0, 0⟩),
  ("µ", ⟨1/1000000, 0, 1, 0, 0, 0, 0, 0, 0⟩),
  ("mil", ⟨254/10000000, 0, 1, 0, 0, 0, 0, 0, 0⟩),
  ("mi", ⟨1609344/1000, 0, 1, 0, 0, 0, 0, 0, 0⟩),
  ("yd", ⟨9144/10000, 0, 1, 0, 0, 0, 0, 0, 0⟩),
  ("oz", ⟨2834952/100000000, 0, 0, 1, 0, 0, 0, 0, 0⟩),
  ("lb", ⟨4535924/10000000, 0, 0, 1, 0, 0, 0, 0, 0⟩),
  ("d", ⟨86400, 0, 0, 0, 1, 0, 0, 0, 0⟩),
  ("h", ⟨3600, 0, 0, 0, 1, 0, 0, 0, 0⟩),
  ("min", ⟨60, 0, 0, 0, 1, 0, 0, 0, 0⟩),
  ("degF", ⟨10/18, 45967/100, 0, 0, 0, 0, 1, 0, 0⟩),
  ("degR", ⟨10/18, 0, 0, 0, 0, 0, 1, 0, 0⟩),
  ("BTU", ⟨105587/100, 0, 2, 1, -2, 0, 0, 0, 0⟩),
  ("cal", ⟨419002/100000, 0, 2, 1, -2, 0, 0, 0, 0⟩),
  ("eV", ⟨1602176/10000000000000000000000000, 0, 2, 1, -2, 0, 0, 0, 0⟩),
  ("lbf", ⟨4448222/1000000, 0, 1, 1, -2, 0, 0, 0, 0⟩),
  ("horsepower", ⟨746, 0, 2, 1, -3, 0, 0, 0, 0⟩),
  ("atm", ⟨101325, 0, -1, 1, -2, 0, 0, 0, 0⟩),
  ("bar", ⟨100000, 0, -1, 1, -2, 0, 0, 0, 0⟩),
  ("inHg", ⟨3386389/1000, 0, -1, 1, -2, 0, 0, 0, 0⟩),
  ("psi", ⟨6894757/1000000, 0, -1, 1, -2, 0, 0, 0, 0⟩),
  ("torr", ⟨1333224/10000, 0, -1, 1, -2, 0, 0, 0, 0⟩),
  ("rad", ⟨1/100, 0, 2, 0, -2, 0, 0, 0, 0⟩),
  ("rem", ⟨1/100, 0, 2, 0, -2, 0, 0, 0, 0⟩),
  ("gal", ⟨3785412/1000000000, 0, 3, 0, 0, 0, 0, 0, 0⟩)
]

/-- `PREFIXES` (parser.cpp:87): SI prefix string → scale. -/
def PREFIXES : List (String × ℚ) := [
  ("P", 1000000000000000),
  ("T", 1000000000000),
  ("G", 1000000000),
  ("M", 1000000),
  ("k", 1000),
  ("h", 100),
  ("da", 10),
  ("d", 1/10),
  ("c", 1/100),
  ("m", 1/1000),
  ("µ", 1/1000000),
  ("n", 1/1000000000),
  ("p", 1/1000000000000),
  ("f", 1/1000000000000000)
]

/-- `NUMBERS` (parser.cpp:104). -/
def NUMBERS : List Char := ['0', '1', '2', '3', '4', '5', '6', '7', '8', '9']

/-- `LETTERS` (parser.cpp:106), the fixed unit-identifier alphabet,
transcribed in source order. -/
def LETTERS : List Char :=
  ['a', 'A', 'B', 'b', 'c', 'C', 'd', 'e', 'E', 'f', 'F', 'g', 'G', 'h',
   'H', 'i', 'k', 'K', 'l', 'L', 'm', 'M', 'µ', 'n', 'N', 'o', 'p', 'P',
   'q', 'r', 'S', 's', 't', 'T', 'v', 'V', 'W', 'x', 'y', 'Y', 'z', 'Z',
   'Ω']

/-- `LENMAXINT` (parser.cpp:16): numeric literals are capped at 2 digits. -/
def LENMAXINT : Nat := 2

/-- `LENMAXSTR` (parser.cpp:17): identifiers are capped at 128 letters. -/
def LENMAXSTR : Nat := 128

/-- A token is its character sequence (`Token::value`); `[]` is the empty
end-of-input token, `Token::operator==` is list equality. -/
abbrev Token := List Char

/-- The `TokenStream`'s unconsumed text (`TokenStream::expression`). -/
abbrev Expr := List Char

/-- `TokenStream::get_numbers` (parser.cpp:180): greedily accumulate digit
characters onto `t`; a non-digit is put back; more than `LENMAXINT`
accumulated characters is a `TokenError`. -/
def getNumbers (t : Token) (e : Expr) : Except PErr (Token × Expr) :=
  match e with
  | [] => .ok (t, [])
  | ch :: rest =>
    if ch ∈ NUMBERS then
      if (t ++ [ch]).length > LENMAXINT then .error .token
      else getNumbers (t ++ [ch]) rest
    else .ok (t, ch :: rest)

/-- `TokenStream::get_letters` (parser.cpp:197): greedily accumulate
identifier letters onto `t`; a non-letter is put back; more than `LENMAXSTR`
accumulated characters is a `TokenError`. -/
def getLetters (t : Token) (e : Expr) : Except PErr (Token × Expr) :=
  match e with
  | [] => .ok (t, [])
  | ch :: rest =>
    if ch ∈ LETTERS then
      if (t ++ [ch]).length > LENMAXSTR then .error .token
      else getLetters (t ++ [ch]) rest
    else .ok (t, ch :: rest)

/-- The local `ops` table of `TokenStream::get` (parser.cpp:214). -/
def singleOps : List Char := ['-', '+', '/', '(', ')']

/-- `TokenStream::get` (parser.cpp:219), returning the token together with
the remaining unconsumed text.  On `'*'` the C++ peeks `expression[0]` of the
*rest*; when the rest is empty that reads the string's null terminator
(defined behaviour, `'\0' ≠ '*'`), so a trailing `'*'` is a plain `*`
token — the `match` below covers both cases. -/
def tsGet (e : Expr) : Except PErr (Token × Expr) :=
  match e with
  | [] => .ok ([], [])
  | ch :: rest =>
    if ch ∈ singleOps then .ok ([ch], rest)
    else if ch = '*' then
      if rest.head? = some '*' then .ok (['*', '*'], rest.tail)
      else .ok (['*'], rest)
    else if ch ∈ NUMBERS then getNumbers [ch] rest
    else if ch ∈ LETTERS then getLetters [ch] rest
    else .error .token

/-- `TokenStream::putback` (parser.h:59): prepend the token's text to the
unconsumed buffer. -/
def tsPutback (t : Token) (e : Expr) : Expr := t ++ e

/-- `Token::isdecimal` (parser.cpp:167): every character is a digit (an
empty token passes vacuously, exactly as the C++ loop does). -/
def isdecimal (t : Token) : Bool := t.all Char.isDigit

/-- `Fraction(t.str())` on a digits-only token: the decimal integer value.
(`boost` rejects an empty literal at runtime; modelled as a token error —
no claim reaches that path.) -/
def fracOfToken (t : Token) : Except PErr ℚ :=
  if t = [] then .error .token
  else .ok ((t.foldl (fun n ch => 10 * n + (ch.toNat - 48)) 0 : ℕ) : ℚ)

/-- The parser state: the token stream's unconsumed text together with the
current contents of the (mutable, global) `SIUNITS` table — the one table
`Parser::get_unit` can modify through `std::map::operator[]`. -/
structure PState where
  expr : Expr
  si : List (String × Factors)
deriving DecidableEq

/-- `SIUNITS[k]` in `Parser::get_unit` (parser.cpp:418): `std::map`'s
`operator[]` returns the mapped value when the key is present and otherwise
*inserts* a default-constructed `Factors` under that key and returns it. -/
def mapIndex (tbl : List (String × Factors)) (k : String) :
    Factors × List (String × Factors) :=
  match tbl.lookup k with
  | some f => (f, tbl)
  | none => ({}, tbl ++ [(k, {})])

/-- Result type of the recursive-descent routines: a `Factors` value plus
the updated parser state, or a thrown error. -/
abbrev PRes := Except PErr (Factors × PState)

mutual

/-- `Parser::get_expression` (parser.cpp:363): parse a term, then the
left-associative `*` / `/` chain (`exprLoop`). -/
def getExpression : Nat → PState → PRes
  | 0, _ => .error .noFuel
  | n + 1, st => do
    let (f, st) ← getTerm n st
    exprLoop n f st

/-- The `while (true)` loop of `Parser::get_expression`: fetch a token; on
`*` or `/` fold in the next term via `operator*=` / `operator/=`; on the
empty token stop; on anything else put the token back and stop. -/
def exprLoop : Nat → Factors → PState → PRes
  | 0, _, _ => .error .noFuel
  | n + 1, f, st => do
    let (t, e) ← tsGet st.expr
    let st := { st with expr := e }
    if t = ['*'] then do
      let (g, st) ← getTerm n st
      let f ← Factors.mulAssign f g
      exprLoop n f st
    else if t = ['/'] then do
      let (g, st) ← getTerm n st
      let f ← Factors.divAssign f g
      exprLoop n f st
    else if t = [] then .ok (f, st)
    else .ok (f, { st with expr := tsPutback t st.expr })

/-- `Parser::get_term` (parser.cpp:387): parse a unit, then the `**`
chain (`termLoop`). -/
def getTerm : Nat → PState → PRes
  | 0, _ => .error .noFuel
  | n + 1, st => do
    let (f, st) ← getUnit n st
    termLoop n f st

/-- The `while (true)` loop of `Parser::get_term`: on `**`, evaluate the
exponent (`get_numberterm()`, with its default `inpar = false`) and apply
`Factors::pow`; any other token is put back and the loop stops. -/
def termLoop : Nat → Factors → PState → PRes
  | 0, _, _ => .error .noFuel
  | n + 1, f, st => do
    let (t, e) ← tsGet st.expr
    let st := { st with expr := e }
    if t = ['*', '*'] then do
      let (g, st) ← getNumberterm false n st
      let f ← Factors.pw f g
      termLoop n f st
    else .ok (f, { st with expr := tsPutback t st.expr })

/-- `Parser::get_unit` (parser.cpp:405): resolve one identifier token —
first the non-SI table, then the (current, possibly grown) SI table, then
prefix decomposition (`"da"` gives a two-character prefix, else one
character; `SIUNITS[suffix]` is `mapIndex`, which inserts a default entry
when the suffix is unknown), then a parenthesised sub-expression; anything
else is a `TokenError`. -/
def getUnit : Nat → PState → PRes
  | 0, _ => .error .noFuel
  | n + 1, st => do
    let (t, e) ← tsGet st.expr
    let st := { st with expr := e }
    match NONSIUNITS.lookup (String.mk t) with
    | some f => .ok (f, st)
    | none =>
      match st.si.lookup (String.mk t) with
      | some f => .ok (f, st)
      | none =>
        let pfxlen : Nat := if t.take 2 = ['d', 'a'] then 2 else 1
        match PREFIXES.lookup (String.mk (t.take pfxlen)) with
        | some scale =>
          let (f, si) := mapIndex st.si (String.mk (t.drop pfxlen))
          .ok ({ f with multiplier := f.multiplier * scale },
               { st with si := si })
        | none =>
          if t = ['('] then do
            let (f, st) ← getExpression n st
            let (t2, e2) ← tsGet st.expr
            if t2 = [')'] then .ok (f, { st with expr := e2 })
            else .error .token
          else .error .token

/-- `Parser::get_numberterm` (parser.cpp:435): parse a number, then — only
when `inpar` — a `*` / `/` chain of further numbers (`numtermLoop`). -/
def getNumberterm : Bool → Nat → PState → PRes
  | _, 0, _ => .error .noFuel
  | inpar, n + 1, st => do
    let (f, st) ← getNumber n st
    numtermLoop inpar n f st

/-- The `while (true)` loop of `Parser::get_numberterm`. -/
def numtermLoop : Bool → Nat → Factors → PState → PRes
  | _, 0, _, _ => .error .noFuel
  | inpar, n + 1, f, st => do
    let (t, e) ← tsGet st.expr
    let st := { st with expr := e }
    if inpar ∧ t = ['/'] then do
      let (g, st) ← getNumber n st
      let f ← Factors.divAssign f g
      numtermLoop inpar n f st
    else if inpar ∧ t = ['*'] then do
      let (g, st) ← getNumber n st
      let f ← Factors.mulAssign f g
      numtermLoop inpar n f st
    else .ok (f, { st with expr := tsPutback t st.expr })

/-- `Parser::get_number` (parser.cpp:455): a parenthesised `numberterm`
(with `inpar = true`), a decimal literal made into a dimensionless
`Factors`, or a signed number. -/
def getNumber : Nat → PState → PRes
  | 0, _ => .error .noFuel
  | n + 1, st => do
    let (t, e) ← tsGet st.expr
    let st := { st with expr := e }
    if t = ['('] then do
      let (f, st) ← getNumberterm true n st
      let (t2, e2) ← tsGet st.expr
      if t2 = [')'] then .ok (f, { st with expr := e2 })
      else .error .token
    else if isdecimal t then do
      let q ← fracOfToken t
      .ok (({ multiplier := q } : Factors), st)
    else if t = ['-'] then do
      let (f, st) ← getNumber n st
      .ok (f.neg, st)
    else if t = ['+'] then getNumber n st
    else .error .token

end

/-- Fuel that is ample for any input of the given length: every recursive
call of the mutual block consumes one unit, the call depth is bounded by the
remaining text, and every loop iteration consumes at least one character. -/
def fuelFor (units : String) : Nat := 8 * units.length + 16

/-- `Parser::parse` (parser.cpp:357) run against an explicit snapshot of the
global `SIUNITS` table: reset the token stream to `units`, parse one
expression (leftover text is ignored, as in the C++), and return the outcome
together with the table as it stands afterwards. -/
def parseFrom (si : List (String × Factors)) (units : String) :
    Except PErr Factors × List (String × Factors) :=
  match getExpression (fuelFor units) { expr := units.data, si := si } with
  | .ok (f, st) => (.ok f, st.si)
  | .error e => (.error e, si)

/-- `Parser::parse` from a fresh process: the global tables hold their
initialisers. -/
def parse (units : String) : Except PErr Factors × List (String × Factors) :=
  parseFrom SIUNITS units

/-- The `SIUNITS` entry for the kelvin: multiplier 1, dimension `K = 1`. -/
def Kunit : Factors := ⟨1, 0, 0, 0, 0, 0, 1, 0, 0⟩

/-- The dimensionless exponent value `2`, as `get_number` builds it from the
literal token `"2"`. -/
def twoF : Factors := { multiplier := 2 }

/-!  Theorems.  Each claim of the specification gets one theorem below
(plus a counterexample or witness where called for). -/

/-- Helper: a successful `getNumbers` run moves characters from the text to
the token, preserving their concatenation. -/
theorem getNumbers_text {e : Expr} : ∀ {t0 t : Token} {e' : Expr},
    getNumbers t0 e = .ok (t, e') → t0 ++ e = t ++ e' := by
  induction e with
  | nil =>
    intro t0 t e' h
    simp only [getNumbers] at h
    obtain ⟨rfl, rfl⟩ : t0 = t ∧ ([] : Expr) = e' := by
      simpa using h
    simp
  | cons ch rest ih =>
    intro t0 t e' h
    simp only [getNumbers] at h
    split at h
    · split at h
      · simp at h
      · simpa using ih h
    · obtain ⟨rfl, rfl⟩ : t0 = t ∧ ch :: rest = e' := by
        simpa using h
      rfl

/-- Helper: the same for `getLetters`. -/
theorem getLetters_text {e : Expr} : ∀ {t0 t : Token} {e' : Expr},
    getLetters t0 e = .ok (t, e') → t0 ++ e = t ++ e' := by
  induction e with
  | nil =>
    intro t0 t e' h
    simp only [getLetters] at h
    obtain ⟨rfl, rfl⟩ : t0 = t ∧ ([] : Expr) = e' := by
      simpa using h
    simp
  | cons ch rest ih =>
    intro t0 t e' h
    simp only [getLetters] at h
    split at h
    · split at h
      · simp at h
      · simpa using ih h
    · obtain ⟨rfl, rfl⟩ : t0 = t ∧ ch :: rest = e' := by
        simpa using h
      rfl

/-- Helper: a successful `TokenStream::get` consumes exactly the returned
token's characters from the front of the text. -/
theorem tsGet_text {e : Expr} {t : Token} {e' : Expr}
    (h : tsGet e = .ok (t, e')) : e = t ++ e' := by
  match e with
  | [] =>
    simp only [tsGet] at h
    obtain ⟨rfl, rfl⟩ : ([] : Token) = t ∧ ([] : Expr) = e' := by
      simpa using h
    rfl
  | ch :: rest =>
    simp only [tsGet] at h
    split at h
    · obtain ⟨rfl, rfl⟩ : [ch] = t ∧ rest = e' := by
        simpa using h
      rfl
    · split at h
      · rename_i hch hstar
        split at h
        · rename_i hhead
          obtain ⟨rfl, rfl⟩ : ['*', '*'] = t ∧ rest.tail = e' := by
            simpa using h
          cases rest with
          | nil => simp at hhead
          | cons c2 r2 =>
            simp only [List.head?_cons, Option.some.injEq] at hhead
            simp [hstar, hhead]
        · obtain ⟨rfl, rfl⟩ : ['*'] = t ∧ rest = e' := by
            simpa using h
          simp [hstar]
      · split at h
        · simpa using getNumbers_text h
        · split at h
          · simpa using getLetters_text h
          · simp at h

/-- C1 counterexample: the claim that `parse "degC"` returns all seven
dimension exponents equal to `0` is false — the `SIUNITS` entry for `degC`
(parser.cpp:43) carries the thermodynamic-temperature exponent `K = 1`. -/
theorem C1_cex : ¬ ∃ f : Factors, (parse "degC").1 = .ok f ∧
    f.multiplier = 1 ∧ f.offset = 27315/100 ∧ f.m = 0 ∧ f.kg = 0 ∧ f.s = 0 ∧
    f.A = 0 ∧ f.K = 0 ∧ f.mol = 0 ∧ f.cd = 0 := by
  rintro ⟨f, hf, -, -, -, -, -, -, hK, -, -⟩
  have hp : (parse "degC").1 = .ok ⟨1, 27315/100, 0, 0, 0, 0, 1, 0, 0⟩ := by
    decide
  rw [hp] at hf
  cases Except.ok.inj hf
  exact absurd hK (by decide)

/-- C1 (amended): `parse "degC"` succeeds with multiplier `1`, offset
`27315/100`, temperature exponent `K = 1`, and the other six dimension
exponents `0`. -/
theorem C1_degC : (parse "degC").1 = .ok ⟨1, 27315/100, 0, 0, 0, 0, 1, 0, 0⟩ := by
  decide

/-- C2: the code drops the `K` (temperature) exponent in `operator*`,
`operator/` and `operator/=` (only `operator*=` sums it) — multiplying the
kelvin unit by itself leaves `K = 0` where the claim requires the sum `2`,
dividing the kelvin unit by a dimensionless factor leaves `K = 0` where the
claim requires the difference `1`, and `operator/=` (the form the parser
invokes for `/`) leaves the left operand's `K` untouched, so even
`parse "K/K"` fails to cancel the temperature dimension. -/
theorem C2_K_dropped :
    Factors.mul Kunit Kunit = .ok ⟨1, 0, 0, 0, 0, 0, 0, 0, 0⟩ ∧
    Kunit.K + Kunit.K = 2 ∧
    Factors.div Kunit {} = .ok ⟨1, 0, 0, 0, 0, 0, 0, 0, 0⟩ ∧
    Kunit.K - Factors.K {} = 1 ∧
    Factors.divAssign Kunit Kunit = .ok Kunit ∧
    Kunit.K - Kunit.K = 0 ∧
    Factors.mulAssign Kunit Kunit = .ok ⟨1, 0, 0, 0, 0, 0, 2, 0, 0⟩ ∧
    (parse "K/K").1 = .ok Kunit := by
  decide

/-- C3: `Factors::pow` multiplies `m, kg, s, A, mol, cd` by the exponent
but not `K` (parser.cpp:323-328) — raising the kelvin unit to the power `2`
leaves `K = 1` where the claim requires `a.K * e = 2`; the end-to-end parse
of `K**2` shows the same. -/
theorem C3_pw_K_not_scaled :
    Factors.pw Kunit twoF = .ok Kunit ∧
    Kunit.K * twoF.multiplier = 2 ∧ Kunit.K = 1 ∧
    (parse "K**2").1 = .ok Kunit := by
  decide

/-- C4: an identifier made of a known prefix and an unknown suffix is *not*
rejected — `SIUNITS[suffix]` (`std::map::operator[]`, parser.cpp:418)
inserts a default `Factors` and `get_unit` returns it scaled by the prefix,
so `parse "kxyz"` succeeds with multiplier `1000` and no dimensions, and the
bare identifier `"da"` succeeds with multiplier `10`, where the claim
requires an unknown-unit error.  The positive half of the claim does hold:
`parse "dam"` gives multiplier `10` and `parse "km"` gives `1000`, both with
dimension `m = 1`. -/
theorem C4_unknown_suffix_not_rejected :
    (parse "kxyz").1 = .ok ⟨1000, 0, 0, 0, 0, 0, 0, 0, 0⟩ ∧
    (parse "da").1 = .ok ⟨10, 0, 0, 0, 0, 0, 0, 0, 0⟩ ∧
    (parse "dam").1 = .ok ⟨10, 0, 1, 0, 0, 0, 0, 0, 0⟩ ∧
    (parse "km").1 = .ok ⟨1000, 0, 1, 0, 0, 0, 0, 0, 0⟩ := by
  decide

/-- C5: parsing is *not* free of effects on the registry — a successful
`parse "kxyz"` inserts the entry `("xyz", Factors())` into the `SIUNITS`
table through `std::map::operator[]`, an entry the pristine table does not
contain. -/
theorem C5_table_mutated :
    SIUNITS.lookup "xyz" = none ∧
    (parse "kxyz").2.lookup "xyz" = some {} ∧
    (parse "kxyz").1 = .ok ⟨1000, 0, 0, 0, 0, 0, 0, 0, 0⟩ := by
  decide

/-- C6: all four multiplicative `Factors` operators throw the
dimensional/semantic error exactly when both operands carry a nonzero
offset, and `parse "degC*degC"` fails with that error kind. -/
theorem C6_affine_guard :
    (∀ a b : Factors,
      (Factors.mul a b = .error .factors ↔ a.offset ≠ 0 ∧ b.offset ≠ 0) ∧
      (Factors.mulAssign a b = .error .factors ↔ a.offset ≠ 0 ∧ b.offset ≠ 0) ∧
      (Factors.div a b = .error .factors ↔ a.offset ≠ 0 ∧ b.offset ≠ 0) ∧
      (Factors.divAssign a b = .error .factors ↔ a.offset ≠ 0 ∧ b.offset ≠ 0)) ∧
    (parse "degC*degC").1 = .error .factors := by
  constructor
  · intro a b
    refine ⟨?_, ?_, ?_, ?_⟩ <;>
      simp only [Factors.mul, Factors.mulAssign, Factors.div,
        Factors.divAssign] <;>
      split <;> simp_all
  · decide

/-- C7 counterexample: not every `SIUNITS` entry has multiplier `1` — the
gram entry (parser.cpp:22) has multiplier `1/1000`. -/
theorem C7_cex : ¬ ∀ p ∈ SIUNITS, p.2.multiplier = 1 ∧
    p.2.m.den = 1 ∧ p.2.kg.den = 1 ∧ p.2.s.den = 1 ∧ p.2.A.den = 1 ∧
    p.2.K.den = 1 ∧ p.2.mol.den = 1 ∧ p.2.cd.den = 1 := by
  decide

/-- C7 (amended): every `SIUNITS` entry has integer dimension exponents,
and multiplier `1` except the gram `"g"` and the litre `"L"`, whose
multipliers are `1/1000`. -/
theorem C7_si_table : ∀ p ∈ SIUNITS,
    (p.2.multiplier = 1 ∨ ((p.1 = "g" ∨ p.1 = "L") ∧ p.2.multiplier = 1/1000)) ∧
    p.2.m.den = 1 ∧ p.2.kg.den = 1 ∧ p.2.s.den = 1 ∧ p.2.A.den = 1 ∧
    p.2.K.den = 1 ∧ p.2.mol.den = 1 ∧ p.2.cd.den = 1 := by
  decide

/-- C7 witness: the amended table invariant instantiated at the metre
entry. -/
theorem C7_si_table_witness :
    ((⟨1, 0, 1, 0, 0, 0, 0, 0, 0⟩ : Factors).multiplier = 1 ∨
      ((("m" : String) = "g" ∨ ("m" : String) = "L") ∧
        (⟨1, 0, 1, 0, 0, 0, 0, 0, 0⟩ : Factors).multiplier = 1/1000)) ∧
    (⟨1, 0, 1, 0, 0, 0, 0, 0, 0⟩ : Factors).m.den = 1 ∧
    (⟨1, 0, 1, 0, 0, 0, 0, 0, 0⟩ : Factors).kg.den = 1 ∧
    (⟨1, 0, 1, 0, 0, 0, 0, 0, 0⟩ : Factors).s.den = 1 ∧
    (⟨1, 0, 1, 0, 0, 0, 0, 0, 0⟩ : Factors).A.den = 1 ∧
    (⟨1, 0, 1, 0, 0, 0, 0, 0, 0⟩ : Factors).K.den = 1 ∧
    (⟨1, 0, 1, 0, 0, 0, 0, 0, 0⟩ : Factors).mol.den = 1 ∧
    (⟨1, 0, 1, 0, 0, 0, 0, 0, 0⟩ : Factors).cd.den = 1 :=
  C7_si_table ("m", ⟨1, 0, 1, 0, 0, 0, 0, 0, 0⟩) (by decide)

/-- C8: `parse "kg*m/s**2"` succeeds with multiplier exactly `1`, offset
`0`, and dimensions `m = 1, kg = 1, s = -2`, the rest `0` — the newton. -/
theorem C8_newton :
    (parse "kg*m/s**2").1 = .ok ⟨1, 0, 1, 1, -2, 0, 0, 0, 0⟩ := by
  decide

/-- C9: parsing the same text twice is *not* idempotent — the first parse
of `"kq*dkq"` inserts `"q"` and `"kq"` into `SIUNITS` and returns multiplier
`100`, after which the second parse of the very same text resolves `"kq"`
from the polluted table and returns multiplier `1/10`. -/
theorem C9_not_idempotent :
    (parse "kq*dkq").1 = .ok ⟨100, 0, 0, 0, 0, 0, 0, 0, 0⟩ ∧
    (parseFrom (parse "kq*dkq").2 "kq*dkq").1 =
      .ok ⟨1/10, 0, 0, 0, 0, 0, 0, 0, 0⟩ ∧
    ((⟨100, 0, 0, 0, 0, 0, 0, 0, 0⟩ : Factors) ≠
      ⟨1/10, 0, 0, 0, 0, 0, 0, 0, 0⟩) := by
  decide

/-- C10: pushback round-trip — when `TokenStream::get` returns a token
without error, putting that token back restores the unconsumed text exactly,
and re-lexing it returns the same token with the same remaining text. -/
theorem C10_roundtrip (e : Expr) (t : Token) (e' : Expr)
    (h : tsGet e = .ok (t, e')) :
    tsPutback t e' = e ∧ tsGet (tsPutback t e') = .ok (t, e') := by
  have he : e = t ++ e' := tsGet_text h
  constructor
  · show t ++ e' = e
    exact he.symm
  · show tsGet (t ++ e') = .ok (t, e')
    rw [← he]
    exact h

/-- C10 witness: the round-trip applied to the concrete stream `"km"`,
whose first `get` returns the token `km` and an empty remainder. -/
theorem C10_roundtrip_witness :
    tsPutback ['k', 'm'] [] = ['k', 'm'] ∧
    tsGet (tsPutback ['k', 'm'] []) = .ok (['k', 'm'], []) :=
  C10_roundtrip ['k', 'm'] ['k', 'm'] [] (by decide)

end Nubivis
